import Mathlib

import Mathlib

/-!
Verification of the Atomic-Swaps repository (XMR-BTC swap engine).

The TypeScript sources are embedded shallowly:
* JS strings are modelled as lists of characters (`Str`);
* `bigint` values are modelled as `Int`; JS `number` fields that the code only
  ever uses at integer values (timestamps, block heights, counters, fee rates)
  are modelled as `Int`;
* byte arrays (`Uint8Array`) are modelled as `List Nat` with entries < 256;
* fallible code is modelled with `Option`/`Except`; the ambient clock
  (`Date.now()`) is passed explicitly as a parameter.
-/

namespace AtomicSwap

/-- JS strings, modelled as lists of characters. -/
abbrev Str := List Char

/-- Lower-case hex digit for a value < 16 (used by `hex.encode`). -/
def hexDigitChar (n : Nat) : Char := "0123456789abcdef".data.getD n '0'

/-- Hex encoding of one byte, two lower-case digits (as `@scure/base` hex). -/
def hexEncodeByte (b : Nat) : Str := [hexDigitChar (b / 16), hexDigitChar (b % 16)]

/-- `hex.encode` from `@scure/base`: byte list to lower-case hex string. -/
def hexEncode (bytes : List Nat) : Str :=
  bytes.foldr (fun b acc => hexEncodeByte b ++ acc) []

/-- `String.prototype.startsWith`, at the character-list level. -/
def strStartsWith : Str → Str → Bool
  | _, [] => true
  | [], _ :: _ => false
  | c :: s, d :: p => (c = d) && strStartsWith s p

/-- Decimal digits of `n`, most significant first, as characters. -/
def natToDecChars (n : Nat) : Str :=
  ((Nat.digits 10 n).map (fun d => Char.ofNat (48 + d))).reverse

/-- `BigInt.prototype.toString` for non-negative values. -/
def natToDecStr (n : Nat) : Str := if n = 0 then ['0'] else natToDecChars n

/-- `BigInt.prototype.toString`, sign included. -/
def intToDecStr (n : Int) : Str :=
  if n < 0 then '-' :: natToDecStr n.natAbs else natToDecStr n.toNat

/-- One character back to a decimal digit value, `none` on a non-digit. -/
def charToDigit? (c : Char) : Option Nat :=
  if 48 ≤ c.toNat ∧ c.toNat ≤ 57 then some (c.toNat - 48) else none

/-- One step of decimal accumulation; a non-digit poisons the accumulator. -/
def decDigitStep (acc : Option Nat) (c : Char) : Option Nat :=
  match acc, charToDigit? c with
  | some a, some d => some (10 * a + d)
  | _, _ => none

/-- Digit-string parsing: `none` on the empty string or any non-digit
(the throwing cases of JS `BigInt(string)` for sign-free inputs). -/
def decCharsToNat? (cs : Str) : Option Nat :=
  match cs with
  | [] => none
  | c :: rest => (c :: rest).foldl decDigitStep (some 0)

/-- JS `BigInt(string)` on an optional leading minus followed by digits;
`none` models the thrown `SyntaxError` on malformed input. -/
def decCharsToInt? (cs : Str) : Option Int :=
  match cs with
  | [] => none
  | c :: rest =>
    if c = '-' then (decCharsToNat? rest).map (fun m => -(Int.ofNat m))
    else (decCharsToNat? (c :: rest)).map Int.ofNat

/-! ## SHA-256 (`@noble/hashes/sha256`), per FIPS 180-4, byte lists in, 32 bytes out -/

/-- Truncation to 32 bits. -/
def w32 (n : Nat) : Nat := n % 4294967296

/-- 32-bit right rotation (input assumed < 2^32). -/
def rotr32 (x n : Nat) : Nat :=
  w32 (Nat.lor (Nat.shiftRight x n) (Nat.shiftLeft x (32 - n)))

def sha256K : List Nat :=
  [1116352408, 1899447441, 3049323471, 3921009573, 961987163,
   1508970993, 2453635748, 2870763221, 3624381080, 310598401,
   607225278, 1426881987, 1925078388, 2162078206, 2614888103,
   3248222580, 3835390401, 4022224774, 264347078, 604807628,
   770255983, 1249150122, 1555081692, 1996064986, 2554220882,
   2821834349, 2952996808, 3210313671, 3336571891, 3584528711,
   113926993, 338241895, 666307205, 773529912, 1294757372,
   1396182291, 1695183700, 1986661051, 2177026350, 2456956037,
   2730485921, 2820302411, 3259730800, 3345764771, 3516065817,
   3600352804, 4094571909, 275423344, 430227734, 506948616,
   659060556, 883997877, 958139571, 1322822218, 1537002063,
   1747873779, 1955562222, 2024104815, 2227730452, 2361852424,
   2428436474, 2756734187, 3204031479, 3329325298]

def sha256H0 : List Nat :=
  [1779033703, 3144134277, 1013904242, 2773480762,
   1359893119, 2600822924, 528734635, 1541459225]

/-- `k` bytes of `n`, big-endian. -/
def beBytes (k n : Nat) : List Nat :=
  (List.range k).map (fun i => (Nat.shiftRight n (8 * (k - 1 - i))) % 256)

/-- FIPS 180-4 padding: 0x80, zeros to 56 mod 64, 8-byte bit length. -/
def sha256Pad (msg : List Nat) : List Nat :=
  let L := msg.length
  let z := (120 - (L + 1) % 64) % 64
  msg ++ [0x80] ++ List.replicate z 0 ++ beBytes 8 (8 * L)

/-- 64-byte blocks; the fuel argument makes the recursion structural
(`fuel = l.length` always suffices since each step consumes 64 bytes). -/
def chunks64Aux : Nat → List Nat → List (List Nat)
  | 0, _ => []
  | _ + 1, [] => []
  | fuel + 1, c :: rest => ((c :: rest).take 64) :: chunks64Aux fuel ((c :: rest).drop 64)

def chunks64 (l : List Nat) : List (List Nat) := chunks64Aux l.length l

/-- Big-endian 32-bit word `i` of a 64-byte block. -/
def wordAt (block : List Nat) (i : Nat) : Nat :=
  block.getD (4 * i) 0 * 16777216 + block.getD (4 * i + 1) 0 * 65536 +
  block.getD (4 * i + 2) 0 * 256 + block.getD (4 * i + 3) 0

def smallSigma0 (x : Nat) : Nat :=
  Nat.xor (Nat.xor (rotr32 x 7) (rotr32 x 18)) (Nat.shiftRight x 3)

def smallSigma1 (x : Nat) : Nat :=
  Nat.xor (Nat.xor (rotr32 x 17) (rotr32 x 19)) (Nat.shiftRight x 10)

def bigSigma0 (x : Nat) : Nat :=
  Nat.xor (Nat.xor (rotr32 x 2) (rotr32 x 13)) (rotr32 x 22)

def bigSigma1 (x : Nat) : Nat :=
  Nat.xor (Nat.xor (rotr32 x 6) (rotr32 x 11)) (rotr32 x 25)

def chFn (x y z : Nat) : Nat :=
  Nat.xor (Nat.land x y) (Nat.land (Nat.xor x 4294967295) z)

def majFn (x y z : Nat) : Nat :=
  Nat.xor (Nat.xor (Nat.land x y) (Nat.land x z)) (Nat.land y z)

/-- The 64-entry message schedule of one block. -/
def msgSchedule (block : List Nat) : List Nat :=
  let w16 := (List.range 16).map (wordAt block)
  (List.range 48).foldl (fun ws _ =>
    let n := ws.length
    ws ++ [w32 (smallSigma1 (ws.getD (n - 2) 0) + ws.getD (n - 7) 0 +
                smallSigma0 (ws.getD (n - 15) 0) + ws.getD (n - 16) 0)]) w16

/-- One round of the compression function on the 8-register state. -/
def compressStep (W : List Nat) (st : List Nat) (t : Nat) : List Nat :=
  let a := st.getD 0 0
  let b := st.getD 1 0
  let c := st.getD 2 0
  let d := st.getD 3 0
  let e := st.getD 4 0
  let f := st.getD 5 0
  let g := st.getD 6 0
  let h := st.getD 7 0
  let T1 := w32 (h + bigSigma1 e + chFn e f g + sha256K.getD t 0 + W.getD t 0)
  let T2 := w32 (bigSigma0 a + majFn a b c)
  [w32 (T1 + T2), a, b, c, w32 (d + T1), e, f, g]

def processBlock (H : List Nat) (block : List Nat) : List Nat :=
  let W := msgSchedule block
  let st := (List.range 64).foldl (compressStep W) H
  List.zipWith (fun x y => w32 (x + y)) H st

/-- SHA-256 of a byte list (32-byte digest). -/
def sha256 (msg : List Nat) : List Nat :=
  (((chunks64 (sha256Pad msg)).foldl processBlock sha256H0).map (beBytes 4)).foldr
    (· ++ ·) []

/-! ## Swap state module (the repository's swap state-management source file):
`SwapPhase`, `SwapState`, `createSwapState`, `transitionPhase`,
`updateSwapState`, `recordSwapError`, `isTerminalPhase`, `canRefund`,
serialization. -/

/-- `'mainnet' | 'testnet'`. -/
inductive NetworkKind
  | mainnet
  | testnet
deriving DecidableEq, Repr

/-- The string stored for a network tag. -/
def networkStr : NetworkKind → Str
  | .mainnet => "mainnet".data
  | .testnet => "testnet".data

/-- The 17 members of the `SwapPhase` enum. -/
inductive SwapPhase
  | quoteRequested
  | quoteReceived
  | swapInitiated
  | btcLockTxCreated
  | btcLockTxBroadcast
  | btcLockTxConfirmed
  | xmrLockTxSeen
  | xmrLockTxConfirmed
  | encryptedSigSent
  | btcRedeemed
  | xmrRedeemable
  | xmrRedeemed
  | refundTimelockExpired
  | btcRefunded
  | completed
  | refunded
  | failed
deriving DecidableEq, Repr

/-- The string value of each enum member. -/
def phaseStr : SwapPhase → Str
  | .quoteRequested => "quote_requested".data
  | .quoteReceived => "quote_received".data
  | .swapInitiated => "swap_initiated".data
  | .btcLockTxCreated => "btc_lock_tx_created".data
  | .btcLockTxBroadcast => "btc_lock_tx_broadcast".data
  | .btcLockTxConfirmed => "btc_lock_tx_confirmed".data
  | .xmrLockTxSeen => "xmr_lock_tx_seen".data
  | .xmrLockTxConfirmed => "xmr_lock_tx_confirmed".data
  | .encryptedSigSent => "encrypted_sig_sent".data
  | .btcRedeemed => "btc_redeemed".data
  | .xmrRedeemable => "xmr_redeemable".data
  | .xmrRedeemed => "xmr_redeemed".data
  | .refundTimelockExpired => "refund_timelock_expired".data
  | .btcRefunded => "btc_refunded".data
  | .completed => "completed".data
  | .refunded => "refunded".data
  | .failed => "failed".data

/-- One entry of `phaseHistory`. -/
structure PhaseEntry where
  phase : SwapPhase
  timestamp : Int
  details : Option Str := none
deriving DecidableEq, Repr

/-- The `SwapState` interface.  `bigint` fields (`btcAmount`, `xmrAmount`)
and `number` fields are both `Int` here; the serializer below distinguishes
them exactly as `typeof value === 'bigint'` does. -/
structure SwapState where
  id : Str
  peerId : Str
  createdAt : Int
  updatedAt : Int
  phase : SwapPhase
  phaseHistory : List PhaseEntry
  btcAmount : Int
  xmrAmount : Int
  exchangeRate : Int
  minBtcLockConfirmations : Int
  minXmrLockConfirmations : Int
  btcCancelTimelock : Int
  btcPunishTimelock : Int
  xmrUnlockHeight : Int
  userBtcDepositPubkey : Str
  userBtcRefundPubkey : Str
  asbBtcRedeemPubkey : Str
  userXmrAddress : Str
  asbXmrViewKey : Option Str := none
  secretHash : Str
  secret : Option Str := none
  btcLockTxId : Option Str := none
  btcLockTxVout : Option Int := none
  btcLockTxHex : Option Str := none
  btcRedeemTxId : Option Str := none
  btcRefundTxId : Option Str := none
  htlcScript : Option Str := none
  xmrLockTxId : Option Str := none
  xmrRedeemTxId : Option Str := none
  encryptedSignature : Option Str := none
  lastError : Option Str := none
  errorCount : Int
  network : NetworkKind
deriving DecidableEq, Repr

/-- The parameter record of `createSwapState`. -/
structure CreateSwapParams where
  peerId : Str
  btcAmount : Int
  xmrAmount : Int
  exchangeRate : Int
  userBtcDepositPubkey : List Nat
  userBtcRefundPubkey : List Nat
  asbBtcRedeemPubkey : List Nat
  userXmrAddress : Str
  secretHash : List Nat
  btcCancelTimelock : Int
  btcPunishTimelock : Int
  minBtcLockConfirmations : Int
  minXmrLockConfirmations : Int
  network : NetworkKind
deriving DecidableEq, Repr

/-- `createSwapState`.  The generated id (`generateSwapId()`, random) and the
clock (`Date.now()`) are passed explicitly. -/
def createSwapState (params : CreateSwapParams) (id : Str) (now : Int) : SwapState :=
  { id := id
    peerId := params.peerId
    createdAt := now
    updatedAt := now
    phase := SwapPhase.swapInitiated
    phaseHistory := [{ phase := SwapPhase.swapInitiated, timestamp := now }]
    btcAmount := params.btcAmount
    xmrAmount := params.xmrAmount
    exchangeRate := params.exchangeRate
    minBtcLockConfirmations := params.minBtcLockConfirmations
    minXmrLockConfirmations := params.minXmrLockConfirmations
    btcCancelTimelock := params.btcCancelTimelock
    btcPunishTimelock := params.btcPunishTimelock
    xmrUnlockHeight := 0
    userBtcDepositPubkey := hexEncode params.userBtcDepositPubkey
    userBtcRefundPubkey := hexEncode params.userBtcRefundPubkey
    asbBtcRedeemPubkey := hexEncode params.asbBtcRedeemPubkey
    userXmrAddress := params.userXmrAddress
    secretHash := hexEncode params.secretHash
    network := params.network
    errorCount := 0 }

/-- `transitionPhase`: unconditionally sets the new phase, stamps
`updatedAt` and appends to `phaseHistory`. -/
def transitionPhase (now : Int) (state : SwapState) (newPhase : SwapPhase)
    (details : Option Str := none) : SwapState :=
  { state with
    phase := newPhase
    updatedAt := now
    phaseHistory := state.phaseHistory ++ [{ phase := newPhase, timestamp := now, details := details }] }

/-- The partial-update record of `updateSwapState`
(`Partial<Omit<SwapState, 'id' | 'createdAt' | 'phaseHistory'>>`,
restricted to the fields the repository actually updates);
`none` means the key is absent from the update object. -/
structure SwapStateUpdate where
  secret : Option Str := none
  htlcScript : Option Str := none
  btcLockTxId : Option Str := none
  btcLockTxVout : Option Int := none
  btcLockTxHex : Option Str := none
  btcRedeemTxId : Option Str := none
  btcRefundTxId : Option Str := none
  encryptedSignature : Option Str := none
deriving DecidableEq, Repr

/-- `updateSwapState`: spread-merge of the update over the state plus a
fresh `updatedAt`. -/
def updateSwapState (now : Int) (state : SwapState) (u : SwapStateUpdate) : SwapState :=
  { state with
    secret := match u.secret with | some v => some v | none => state.secret
    htlcScript := match u.htlcScript with | some v => some v | none => state.htlcScript
    btcLockTxId := match u.btcLockTxId with | some v => some v | none => state.btcLockTxId
    btcLockTxVout := match u.btcLockTxVout with | some v => some v | none => state.btcLockTxVout
    btcLockTxHex := match u.btcLockTxHex with | some v => some v | none => state.btcLockTxHex
    btcRedeemTxId := match u.btcRedeemTxId with | some v => some v | none => state.btcRedeemTxId
    btcRefundTxId := match u.btcRefundTxId with | some v => some v | none => state.btcRefundTxId
    encryptedSignature := match u.encryptedSignature with | some v => some v | none => state.encryptedSignature
    updatedAt := now }

/-- `recordSwapError`. -/
def recordSwapError (now : Int) (state : SwapState) (error : Str) : SwapState :=
  { state with
    lastError := some error
    errorCount := state.errorCount + 1
    updatedAt := now }

/-- `isTerminalPhase`. -/
def isTerminalPhase (phase : SwapPhase) : Bool :=
  phase = SwapPhase.completed ∨ phase = SwapPhase.refunded ∨ phase = SwapPhase.failed

/-- `canRefund`: timelock expired, phase not in the three redeemed/completed
phases, and a lock transaction id present. -/
def canRefund (state : SwapState) (currentBlockHeight : Int) : Bool :=
  decide (state.btcCancelTimelock ≤ currentBlockHeight) &&
  !(state.phase = SwapPhase.btcRedeemed) &&
  !(state.phase = SwapPhase.xmrRedeemed) &&
  !(state.phase = SwapPhase.completed) &&
  !(state.btcLockTxId = none)

/-! ### Persistence: `serializeSwapState` / `deserializeSwapState`

`serializeSwapState` is `JSON.stringify(state, replacer)` with a replacer
mapping every `bigint` value `v` to the string `"bigint:" + v.toString()`;
`deserializeSwapState` is `JSON.parse(s, reviver)` with a reviver mapping
every string starting with `"bigint:"` to `BigInt(value.slice(7))`.
Both are modelled at the JSON-tree level (`Json`): the JSON text layer is a
faithful bijection on well-formed trees and is not re-modelled here.  JS
runtime values are `JsVal` (which has `bigint`); a key that is absent from
the object maps to no entry (`JSON.stringify` drops `undefined`-valued
keys, and the optional `SwapState` fields are only ever added with defined
values). -/

/-- A JSON tree (what `JSON.stringify` emits / `JSON.parse` reads). -/
inductive Json
  | null
  | bool (b : Bool)
  | num (n : Int)
  | str (s : Str)
  | arr (l : List Json)
  | obj (l : List (Str × Json))
deriving Repr

/-- A JS runtime value as traversed by the serializer (`bigint` included). -/
inductive JsVal
  | null
  | bool (b : Bool)
  | num (n : Int)
  | bigint (n : Int)
  | str (s : Str)
  | arr (l : List JsVal)
  | obj (l : List (Str × JsVal))
deriving Repr

/-- The tag prepended by the serializer's bigint replacer. -/
def bigintTag : Str := "bigint:".data

mutual

/-- `JSON.parse`'s reviver pass with the bigint reviver, bottom-up over the
tree; `none` models the `SyntaxError` thrown by `BigInt` on a malformed
`"bigint:..."` payload. -/
def reviveJson : Json → Option JsVal
  | .null => some .null
  | .bool b => some (.bool b)
  | .num n => some (.num n)
  | .str s =>
    if strStartsWith s bigintTag then (decCharsToInt? (s.drop 7)).map .bigint
    else some (.str s)
  | .arr l => (reviveJsonList l).map .arr
  | .obj l => (reviveJsonObj l).map .obj

def reviveJsonList : List Json → Option (List JsVal)
  | [] => some []
  | j :: rest =>
    match reviveJson j, reviveJsonList rest with
    | some v, some vs => some (v :: vs)
    | _, _ => none

def reviveJsonObj : List (Str × Json) → Option (List (Str × JsVal))
  | [] => some []
  | (k, j) :: rest =>
    match reviveJson j, reviveJsonObj rest with
    | some v, some vs => some ((k, v) :: vs)
    | _, _ => none

end

/-- An optional string field: no entry when the field is absent. -/
def optStrEntryV (k : Str) : Option Str → List (Str × JsVal)
  | none => []
  | some v => [(k, .str v)]

/-- An optional number field: no entry when the field is absent. -/
def optNumEntryV (k : Str) : Option Int → List (Str × JsVal)
  | none => []
  | some v => [(k, .num v)]

/-- One `phaseHistory` entry as the JS object it is at runtime. -/
def phaseEntryVal (e : PhaseEntry) : JsVal :=
  .obj ([("phase".data, .str (phaseStr e.phase)),
         ("timestamp".data, .num e.timestamp)] ++
        optStrEntryV ("details".data) e.details)

/-- A `SwapState` as the JS object it is at runtime (`btcAmount` and
`xmrAmount` are `bigint`, the other numeric fields are `number`). -/
def swapStateVal (s : SwapState) : JsVal :=
  .obj ([("id".data, .str s.id),
         ("peerId".data, .str s.peerId),
         ("createdAt".data, .num s.createdAt),
         ("updatedAt".data, .num s.updatedAt),
         ("phase".data, .str (phaseStr s.phase)),
         ("phaseHistory".data, .arr (s.phaseHistory.map phaseEntryVal)),
         ("btcAmount".data, .bigint s.btcAmount),
         ("xmrAmount".data, .bigint s.xmrAmount),
         ("exchangeRate".data, .num s.exchangeRate),
         ("minBtcLockConfirmations".data, .num s.minBtcLockConfirmations),
         ("minXmrLockConfirmations".data, .num s.minXmrLockConfirmations),
         ("btcCancelTimelock".data, .num s.btcCancelTimelock),
         ("btcPunishTimelock".data, .num s.btcPunishTimelock),
         ("xmrUnlockHeight".data, .num s.xmrUnlockHeight),
         ("userBtcDepositPubkey".data, .str s.userBtcDepositPubkey),
         ("userBtcRefundPubkey".data, .str s.userBtcRefundPubkey),
         ("asbBtcRedeemPubkey".data, .str s.asbBtcRedeemPubkey),
         ("userXmrAddress".data, .str s.userXmrAddress)] ++
        optStrEntryV ("asbXmrViewKey".data) s.asbXmrViewKey ++
        [("secretHash".data, .str s.secretHash)] ++
        optStrEntryV ("secret".data) s.secret ++
        optStrEntryV ("btcLockTxId".data) s.btcLockTxId ++
        optNumEntryV ("btcLockTxVout".data) s.btcLockTxVout ++
        optStrEntryV ("btcLockTxHex".data) s.btcLockTxHex ++
        optStrEntryV ("btcRedeemTxId".data) s.btcRedeemTxId ++
        optStrEntryV ("btcRefundTxId".data) s.btcRefundTxId ++
        optStrEntryV ("htlcScript".data) s.htlcScript ++
        optStrEntryV ("xmrLockTxId".data) s.xmrLockTxId ++
        optStrEntryV ("xmrRedeemTxId".data) s.xmrRedeemTxId ++
        optStrEntryV ("encryptedSignature".data) s.encryptedSignature ++
        optStrEntryV ("lastError".data) s.lastError ++
        [("errorCount".data, .num s.errorCount),
         ("network".data, .str (networkStr s.network))])

/-- The serialized form of a `bigint`: the replacer's tagged string. -/
def bigintJson (n : Int) : Json := .str (bigintTag ++ intToDecStr n)

/-- An optional string field in the serialized object. -/
def optStrEntryJ (k : Str) : Option Str → List (Str × Json)
  | none => []
  | some v => [(k, .str v)]

/-- An optional number field in the serialized object. -/
def optNumEntryJ (k : Str) : Option Int → List (Str × Json)
  | none => []
  | some v => [(k, .num v)]

/-- One serialized `phaseHistory` entry. -/
def phaseEntryJson (e : PhaseEntry) : Json :=
  .obj ([("phase".data, .str (phaseStr e.phase)),
         ("timestamp".data, .num e.timestamp)] ++
        optStrEntryJ ("details".data) e.details)

/-- `serializeSwapState`: `JSON.stringify(state, bigint-replacer)` as the
JSON tree it writes. -/
def serializeSwapState (s : SwapState) : Json :=
  .obj ([("id".data, .str s.id),
         ("peerId".data, .str s.peerId),
         ("createdAt".data, .num s.createdAt),
         ("updatedAt".data, .num s.updatedAt),
         ("phase".data, .str (phaseStr s.phase)),
         ("phaseHistory".data, .arr (s.phaseHistory.map phaseEntryJson)),
         ("btcAmount".data, bigintJson s.btcAmount),
         ("xmrAmount".data, bigintJson s.xmrAmount),
         ("exchangeRate".data, .num s.exchangeRate),
         ("minBtcLockConfirmations".data, .num s.minBtcLockConfirmations),
         ("minXmrLockConfirmations".data, .num s.minXmrLockConfirmations),
         ("btcCancelTimelock".data, .num s.btcCancelTimelock),
         ("btcPunishTimelock".data, .num s.btcPunishTimelock),
         ("xmrUnlockHeight".data, .num s.xmrUnlockHeight),
         ("userBtcDepositPubkey".data, .str s.userBtcDepositPubkey),
         ("userBtcRefundPubkey".data, .str s.userBtcRefundPubkey),
         ("asbBtcRedeemPubkey".data, .str s.asbBtcRedeemPubkey),
         ("userXmrAddress".data, .str s.userXmrAddress)] ++
        optStrEntryJ ("asbXmrViewKey".data) s.asbXmrViewKey ++
        [("secretHash".data, .str s.secretHash)] ++
        optStrEntryJ ("secret".data) s.secret ++
        optStrEntryJ ("btcLockTxId".data) s.btcLockTxId ++
        optNumEntryJ ("btcLockTxVout".data) s.btcLockTxVout ++
        optStrEntryJ ("btcLockTxHex".data) s.btcLockTxHex ++
        optStrEntryJ ("btcRedeemTxId".data) s.btcRedeemTxId ++
        optStrEntryJ ("btcRefundTxId".data) s.btcRefundTxId ++
        optStrEntryJ ("htlcScript".data) s.htlcScript ++
        optStrEntryJ ("xmrLockTxId".data) s.xmrLockTxId ++
        optStrEntryJ ("xmrRedeemTxId".data) s.xmrRedeemTxId ++
        optStrEntryJ ("encryptedSignature".data) s.encryptedSignature ++
        optStrEntryJ ("lastError".data) s.lastError ++
        [("errorCount".data, .num s.errorCount),
         ("network".data, .str (networkStr s.network))])

/-- `deserializeSwapState`: `JSON.parse` of the serialized text with the
bigint reviver, as the JS value it produces. -/
def deserializeSwapState (j : Json) : Option JsVal := reviveJson j

/-! ## Bitcoin transaction builder (the repository's HTLC/transaction source
file): `createHtlcScript`, `htlcScriptToAddress`, `createLockTransaction`. -/

/-- `{ bech32, pubKeyHash, scriptHash, wif }` network parameters; only the
tag matters for the embedded functions. -/
abbrev Network := NetworkKind

/-- The inner number-to-script-bytes encoder of `createHtlcScript`
(`encodeNum`): `0 ↦ []`, `1..16 ↦ OP_1..OP_16`, otherwise minimal
little-endian bytes with a sign bit.  Little-endian byte expansion of the
absolute value (the `while (val > 0)` loop). -/
def natToLEBytesAux : Nat → Nat → List Nat
  | 0, _ => []
  | fuel + 1, n => if n = 0 then [] else n % 256 :: natToLEBytesAux fuel (n / 256)

def natToLEBytes (n : Nat) : List Nat := natToLEBytesAux n n

/-- Set the high bit of the last byte (the negative-number branch of
`encodeNum`). -/
def setLastHighBit (bytes : List Nat) : List Nat :=
  match bytes with
  | [] => []
  | [b] => [Nat.lor b 0x80]
  | b :: rest => b :: setLastHighBit rest

/-- `encodeNum` from `createHtlcScript`. -/
def encodeNum (n : Int) : List Nat :=
  if n = 0 then []
  else if 1 ≤ n ∧ n ≤ 16 then [0x50 + n.toNat]
  else
    let bytes := natToLEBytes n.natAbs
    if Nat.land (bytes.getLastD 0) 0x80 ≠ 0 then
      bytes ++ [if n < 0 then 0x80 else 0x00]
    else if n < 0 then setLastHighBit bytes
    else bytes

/-- One element passed to `btc.Script.encode`: a named opcode or a data
push (`Uint8Array`). -/
inductive ScriptElem
  | op (code : Nat)
  | data (bytes : List Nat)
deriving DecidableEq, Repr

/-- Serialization of one data push (length-prefixed, with
`OP_PUSHDATA1/2/4` above 75/255/65535 bytes). -/
def pushData (bytes : List Nat) : List Nat :=
  let n := bytes.length
  if n < 76 then n :: bytes
  else if n < 256 then 0x4c :: n :: bytes
  else if n < 65536 then 0x4d :: n % 256 :: n / 256 :: bytes
  else 0x4e :: n % 256 :: n / 256 % 256 :: n / 65536 % 256 :: n / 16777216 % 256 :: bytes

/-- `btc.Script.encode`: opcodes as single bytes, byte arrays as data
pushes. -/
def scriptEncode (elems : List ScriptElem) : List Nat :=
  elems.foldr (fun e acc =>
    (match e with
     | .op code => [code]
     | .data bytes => pushData bytes) ++ acc) []

/-- `HtlcParams`. -/
structure HtlcParams where
  secretHash : List Nat
  redeemPubkey : List Nat
  refundPubkey : List Nat
  locktime : Int
deriving DecidableEq, Repr

/-- The element list handed to `btc.Script.encode` by `createHtlcScript`:
`IF SIZE <32> EQUALVERIFY SHA256 <secretHash> EQUALVERIFY <redeemPubkey>
ELSE <locktime> CHECKLOCKTIMEVERIFY DROP <refundPubkey> ENDIF CHECKSIG`. -/
def htlcScriptElems (params : HtlcParams) : List ScriptElem :=
  [.op 0x63,
   .op 0x82,
   .data (encodeNum 32),
   .op 0x88,
   .op 0xa8,
   .data params.secretHash,
   .op 0x88,
   .data params.redeemPubkey,
   .op 0x67,
   .data (encodeNum params.locktime),
   .op 0xb1,
   .op 0x75,
   .data params.refundPubkey,
   .op 0x68,
   .op 0xac]

/-- The script bytes built by `createHtlcScript`. -/
def htlcScriptBytes (params : HtlcParams) : List Nat :=
  scriptEncode (htlcScriptElems params)

/-- `createHtlcScript`.  The body contains no validation and no throw
site, so the result is always `Except.ok`. -/
def createHtlcScript (params : HtlcParams) : Except Str (List Nat) :=
  Except.ok (htlcScriptBytes params)

/-- A Bitcoin address, at pre-bech32-encoding level: `htlcScriptToAddress`
produces the P2WSH witness program `sha256(script)` for a network (bech32
encoding is an injective display layer and is not re-modelled); other
addresses (change destinations) are kept as the strings the caller
supplies. -/
inductive Address
  | p2wsh (program : List Nat) (network : Network)
  | raw (s : Str)
deriving DecidableEq, Repr

/-- `htlcScriptToAddress`: P2WSH address of `sha256(script)`. -/
def htlcScriptToAddress (script : List Nat) (network : Network) : Address :=
  .p2wsh (sha256 script) network

/-- One transaction input (`{ txid, vout, value, script }`). -/
structure TxInput where
  txid : Str
  vout : Int
  value : Int
  script : List Nat
deriving DecidableEq, Repr

/-- One transaction output as added by `addOutputAddress`. -/
structure TxOutput where
  address : Address
  amount : Int
deriving DecidableEq, Repr

/-- The transaction under construction (inputs in `addInput` order,
outputs in `addOutputAddress` order). -/
structure BtcTransaction where
  inputs : List TxInput
  outputs : List TxOutput
deriving DecidableEq, Repr

/-- `LockTxParams`.  `feeRate` (satoshis per vbyte) is used by the
repository only at integer values, so `Math.ceil(estimatedSize * feeRate)`
is the exact product. -/
structure LockTxParams where
  inputs : List TxInput
  htlcScript : List Nat
  amount : Int
  changeAddress : Str
  feeRate : Int
  network : Network
deriving DecidableEq, Repr

/-- `totalInput`: the summed value of the supplied inputs. -/
def lockTxTotalInput (params : LockTxParams) : Int :=
  params.inputs.foldl (fun acc i => acc + i.value) 0

/-- The fee estimate of `createLockTransaction`:
`(150 + 70 × inputCount) × feeRate`. -/
def lockTxFee (params : LockTxParams) : Int :=
  (150 + 70 * params.inputs.length) * params.feeRate

/-- The change value `totalInput - amount - fee`. -/
def lockTxChange (params : LockTxParams) : Int :=
  lockTxTotalInput params - params.amount - lockTxFee params

/-- The transaction value built by `createLockTransaction`: all inputs, the
HTLC output first, then a change output exactly when
`change > 546` (the dust threshold). -/
def lockTxValue (params : LockTxParams) : BtcTransaction :=
  { inputs := params.inputs
    outputs :=
      [{ address := htlcScriptToAddress params.htlcScript params.network
         amount := params.amount }] ++
      (if 546 < lockTxChange params then
        [{ address := .raw params.changeAddress, amount := lockTxChange params }]
       else []) }

/-- `createLockTransaction`.  The body contains no sufficiency check and no
conditional throw site, so the result is always `Except.ok`. -/
def createLockTransaction (params : LockTxParams) : Except Str BtcTransaction :=
  Except.ok (lockTxValue params)

/-! ## Swap executor (`src/lib/swap/executor.ts`)

External effects are passed as parameters: the clock, the generated swap
id, the peer's swap response, the serialized lock transaction
(`lockTx.extract()`, library serialization), and the broadcast outcome.
Witness elements arrive hex-encoded from the chain API and are decoded
with `hex.decode` before the length test; they are modelled at byte
level. -/

/-- The fields of the peer's `AsbSwapResponse` used by `executeSwap`. -/
structure AsbSwapResponse where
  asb_btc_redeem_pubkey : List Nat
  cancel_timelock : Int
  punish_timelock : Int
  min_btc_lock_confirmations : Int
  min_xmr_lock_confirmations : Int
deriving DecidableEq, Repr

/-- The fields of `SwapKeys` used by `executeSwap`. -/
structure SwapKeys where
  depositPublicKey : List Nat
  refundPublicKey : List Nat
  depositAddress : Str
deriving DecidableEq, Repr

/-- The fields of `SwapQuote` used by `executeSwap`. -/
structure ExecutorQuote where
  peerId : Str
  btcAmount : Int
  xmrAmount : Int
  exchangeRate : Int
deriving DecidableEq, Repr

/-- The sequence of states passed to `saveSwapState` by the synchronous
part of `executeSwap` (everything before the asynchronous continuation):
the post-initiation save carrying the secret, the `BTC_LOCK_TX_CREATED`
save, and the post-broadcast save (or the recorded-error save when the
broadcast fails).  An invalid address or a failed `initiateSwap` throws
before any save. -/
def executeSwapSaves
    (addrOk : Bool)
    (secret : List Nat)
    (quote : ExecutorQuote)
    (keys : SwapKeys)
    (initiateResult : Except Str AsbSwapResponse)
    (network : NetworkKind)
    (swapId : Str)
    (now : Int)
    (utxos : List TxInput)
    (lockTxHex : Str)
    (broadcastResult : Except Str Str) : List SwapState :=
  if addrOk = false then []
  else
    match initiateResult with
    | .error _ => []
    | .ok resp =>
      let secretHash := sha256 secret
      let s0 := createSwapState
        { peerId := quote.peerId
          btcAmount := quote.btcAmount
          xmrAmount := quote.xmrAmount
          exchangeRate := quote.exchangeRate
          userBtcDepositPubkey := keys.depositPublicKey
          userBtcRefundPubkey := keys.refundPublicKey
          asbBtcRedeemPubkey := resp.asb_btc_redeem_pubkey
          userXmrAddress := [] -- the validated destination address string
          secretHash := secretHash
          btcCancelTimelock := resp.cancel_timelock
          btcPunishTimelock := resp.punish_timelock
          minBtcLockConfirmations := resp.min_btc_lock_confirmations
          minXmrLockConfirmations := resp.min_xmr_lock_confirmations
          network := network } swapId now
      let s1 := updateSwapState now s0 { secret := some (hexEncode secret) }
      let htlcScript := htlcScriptBytes
        { secretHash := secretHash
          redeemPubkey := resp.asb_btc_redeem_pubkey
          refundPubkey := keys.refundPublicKey
          locktime := resp.cancel_timelock }
      let s2 := updateSwapState now s1 { htlcScript := some (hexEncode htlcScript) }
      let s3 := updateSwapState now (transitionPhase now s2 SwapPhase.btcLockTxCreated)
        { btcLockTxHex := some lockTxHex }
      match broadcastResult with
      | .ok txId =>
        let s4 := updateSwapState now (transitionPhase now s3 SwapPhase.btcLockTxBroadcast)
          { btcLockTxId := some txId, btcLockTxVout := some 0 }
        [s1, s3, s4]
      | .error e =>
        [s1, s3, recordSwapError now s3 (("Failed to broadcast lock tx: ".data) ++ e)]

/-- A spend of the lock output as returned by `findSpendingTransaction`:
the spending txid and the input's witness stack (hex-decoded). -/
structure Spend where
  txid : Str
  witness : List (List Nat)
deriving DecidableEq, Repr

/-- `extractSecretFromWitness`: the second witness element, when present
and exactly 32 bytes long; no other check is performed. -/
def extractSecretFromWitness (spendWitness : List (List Nat)) : Option (List Nat) :=
  if 2 ≤ spendWitness.length then
    let potentialSecret := spendWitness.getD 1 []
    if potentialSecret.length = 32 then some potentialSecret else none
  else none

/-- One iteration of the `waitForBtcRedeem` polling loop on an observed
spend: when a secret is extracted the swap transitions to `BTC_REDEEMED`
(saving `btcRedeemTxId` and the extracted secret) and then to
`XMR_REDEEMABLE`; both saved states are returned.  `none` means the loop
keeps waiting. -/
def waitForBtcRedeemObserve (now : Int) (state : SwapState) (spendingTx : Option Spend) :
    Option (SwapState × SwapState) :=
  match spendingTx with
  | none => none
  | some tx =>
    match extractSecretFromWitness tx.witness with
    | none => none
    | some revealedSecret =>
      let st1 := updateSwapState now (transitionPhase now state SwapPhase.btcRedeemed)
        { btcRedeemTxId := some tx.txid, secret := some (hexEncode revealedSecret) }
      let st2 := transitionPhase now st1 SwapPhase.xmrRedeemable
        (some ("Secret revealed - XMR can be claimed".data))
      some (st1, st2)

/-! ## Provider discovery (`ProviderDiscovery.getQuote`) and
`SwapProviderService.getQuote` -/

/-- An ASB quote record (`price`, `min_quantity`, `max_quantity`,
`xmr_amount`, all `bigint`). -/
structure AsbQuoteResponse where
  price : Int
  min_quantity : Int
  max_quantity : Int
  xmr_amount : Int
deriving DecidableEq, Repr

namespace ProviderDiscovery

/-- The `try` body of `ProviderDiscovery.getQuote`: `null` when the
provider has no cached quote, a thrown bounds error below the minimum or
above the maximum, the quote otherwise. -/
def getQuoteInner (quote : Option AsbQuoteResponse) (btcAmount : Int) :
    Except Str (Option AsbQuoteResponse) :=
  match quote with
  | none => Except.ok none
  | some q =>
    if btcAmount < q.min_quantity then
      Except.error ("Amount below minimum".data)
    else if q.max_quantity < btcAmount then
      Except.error ("Amount above maximum".data)
    else Except.ok (some q)

/-- `ProviderDiscovery.getQuote`: the whole body sits in a
`try ... catch { return null }`, so the thrown bounds errors are caught
and the caller receives `null`. -/
def getQuote (quote : Option AsbQuoteResponse) (btcAmount : Int) :
    Option AsbQuoteResponse :=
  match getQuoteInner quote btcAmount with
  | .ok v => v
  | .error _ => none

end ProviderDiscovery

/-- The bounds-relevant fields of a `SwapProvider` record
(`minBtc`, `maxBtc`, `price` are decimal strings parsed with `parseFloat`;
they are modelled at parsed-value level as rationals). -/
structure SwapProvider where
  minBtc : ℚ
  maxBtc : ℚ
  price : ℚ
deriving DecidableEq, Repr

/-- A `SwapQuote` as returned by `SwapProviderService.getQuote`
(`toFixed` display rounding is not re-modelled; values are exact). -/
structure ProviderSwapQuote where
  btcAmount : ℚ
  xmrAmount : ℚ
  fee : ℚ
  rate : ℚ
deriving DecidableEq, Repr

namespace SwapProviderService

/-- `SwapProviderService.getQuote`: throws a bounds-violation error below
`minBtc` or above `maxBtc`, otherwise returns the computed quote
(`xmrAmount = btc / rate`, `fee = btc × 0.001`). -/
def getQuote (provider : SwapProvider) (btcAmount : ℚ) :
    Except Str ProviderSwapQuote :=
  if btcAmount < provider.minBtc then
    Except.error ("Amount below minimum".data)
  else if provider.maxBtc < btcAmount then
    Except.error ("Amount above maximum".data)
  else
    Except.ok
      { btcAmount := btcAmount
        xmrAmount := btcAmount / provider.price
        fee := btcAmount * (1 / 1000)
        rate := provider.price }

end SwapProviderService

/-! ## Claims -/

/-- A concrete baseline state for closed instances. -/
def baseState : SwapState :=
  { id := ("swap_1".data)
    peerId := ("peer".data)
    createdAt := 0
    updatedAt := 0
    phase := SwapPhase.swapInitiated
    phaseHistory := [{ phase := SwapPhase.swapInitiated, timestamp := 0 }]
    btcAmount := 100000
    xmrAmount := 5
    exchangeRate := 1
    minBtcLockConfirmations := 2
    minXmrLockConfirmations := 10
    btcCancelTimelock := 72
    btcPunishTimelock := 144
    xmrUnlockHeight := 0
    userBtcDepositPubkey := ("02aa".data)
    userBtcRefundPubkey := ("02bb".data)
    asbBtcRedeemPubkey := ("02cc".data)
    userXmrAddress := ("4addr".data)
    secretHash := ("00".data)
    errorCount := 0
    network := NetworkKind.testnet }

/-- Closed instance of `canRefund_iff`. -/
def c1State : SwapState :=
  { baseState with
    btcLockTxId := some ("aaaa".data)
    phase := SwapPhase.encryptedSigSent }

/-- C4 counterexample: a `COMPLETED` (terminal) state is not immutable —
`transitionPhase` moves it to `FAILED`, a different phase. -/
def c4State : SwapState := { baseState with phase := SwapPhase.completed }

/-- C5 counterexample: inputs sum to 1000 < amount + fee = 100220 satoshis,
yet `createLockTransaction` returns a transaction (`Except.ok`) instead of
raising an error; the unfunded transaction has the single HTLC output. -/
def c5Params : LockTxParams :=
  { inputs := [{ txid := ("11".data), vout := 0, value := 1000, script := [] }]
    htlcScript := [0x51]
    amount := 100000
    changeAddress := ("chg".data)
    feeRate := 1
    network := NetworkKind.testnet }

/-- Closed instances of `createLockTransaction_change_iff`: remainder
99780 > 546 yields a change output, remainder 480 ≤ 546 yields none. -/
def c6Params : LockTxParams :=
  { inputs := [{ txid := ("11".data), vout := 0, value := 200000, script := [] }]
    htlcScript := [0x51]
    amount := 100000
    changeAddress := ("chg".data)
    feeRate := 1
    network := NetworkKind.testnet }

def c6bParams : LockTxParams := { c6Params with amount := 199300 }

/-- C7 counterexample: a 31-byte `secretHash` is not rejected —
`createHtlcScript` returns a well-formed script embedding it. -/
def c7Params : HtlcParams :=
  { secretHash := List.replicate 31 0xab
    redeemPubkey := List.replicate 33 2
    refundPubkey := List.replicate 33 3
    locktime := 72 }

/-- C9 counterexample: for an amount below the provider's minimum,
`ProviderDiscovery.getQuote` throws inside its own `try` block, catches the
error itself, and resolves with `null` — the caller receives a non-error
value, not a raised bounds-violation error. -/
def c9Quote : AsbQuoteResponse :=
  { price := 625000000000
    min_quantity := 10000
    max_quantity := 10000000
    xmr_amount := 0 }

/-- Closed instance of `getQuote_bounds_validation`. -/
def spW : SwapProvider := { minBtc := 1/10000, maxBtc := 1/10, price := 13/2000 }

/-- C2 counterexample state: `secretHash` commits to 32 zero bytes. -/
def c2State : SwapState :=
  { baseState with
    secretHash := hexEncode (List.replicate 32 0)
    phase := SwapPhase.encryptedSigSent
    btcLockTxId := some ("ff".data) }

/-- C2 counterexample spend: the second witness element is 32 zero bytes,
which do not hash to the state's `secretHash`. -/
def c2Spend : Spend :=
  { txid := ("dd".data)
    witness := [List.replicate 70 1, List.replicate 32 0, [1], [0x63]] }

/-- C3 counterexample inputs. -/
def c3Secret : List Nat := List.replicate 32 7

def c3Quote : ExecutorQuote :=
  { peerId := ("peer".data), btcAmount := 100000, xmrAmount := 5, exchangeRate := 1 }

def c3Keys : SwapKeys :=
  { depositPublicKey := List.replicate 33 2
    refundPublicKey := List.replicate 33 3
    depositAddress := ("tb1dep".data) }

def c3Resp : AsbSwapResponse :=
  { asb_btc_redeem_pubkey := List.replicate 33 4
    cancel_timelock := 72
    punish_timelock := 144
    min_btc_lock_confirmations := 2
    min_xmr_lock_confirmations := 10 }

/-! ### C8 support: evaluation lemmas for the reviver -/

/-- A string is safe for the round trip when it does not start with the
bigint tag (such a value would be mistaken for a serialized bigint). -/
def strOk (s : Str) : Bool := !(strStartsWith s bigintTag)

def optStrOk : Option Str → Bool
  | none => true
  | some v => strOk v

/-- No string stored in the state starts with `"bigint:"` (the condition
the counterexample violates). -/
def stateStrsOk (s : SwapState) : Prop :=
  strOk s.id = true ∧ strOk s.peerId = true ∧ strOk s.userBtcDepositPubkey = true ∧
  strOk s.userBtcRefundPubkey = true ∧ strOk s.asbBtcRedeemPubkey = true ∧
  strOk s.userXmrAddress = true ∧ optStrOk s.asbXmrViewKey = true ∧
  strOk s.secretHash = true ∧ optStrOk s.secret = true ∧
  optStrOk s.btcLockTxId = true ∧ optStrOk s.btcLockTxHex = true ∧
  optStrOk s.btcRedeemTxId = true ∧ optStrOk s.btcRefundTxId = true ∧
  optStrOk s.htlcScript = true ∧ optStrOk s.xmrLockTxId = true ∧
  optStrOk s.xmrRedeemTxId = true ∧ optStrOk s.encryptedSignature = true ∧
  optStrOk s.lastError = true ∧ (∀ e ∈ s.phaseHistory, optStrOk e.details = true)

/-- Field access on a revived JS object (used to exhibit the mangled
field). -/
def jsObjGet (v : JsVal) (k : Str) : Option JsVal :=
  match v with
  | .obj l => (l.find? (fun p => decide (p.1 = k))).map (fun p => p.2)
  | _ => none

/-- C8 counterexample state: a well-typed `SwapState` whose `id` is the
string `"bigint:7"`. -/
def c8State : SwapState :=
  { baseState with id := ("bigint:7".data), btcAmount := 0, xmrAmount := 0 }

theorem strStartsWith_nil (s : Str) : strStartsWith s [] = true := by
  cases s <;> rfl

theorem strStartsWith_append (p t : Str) : strStartsWith (p ++ t) p = true := by
  induction p with
  | nil => simp [strStartsWith_nil]
  | cons c cs ih => simp [strStartsWith, ih]

theorem charToDigit?_ofNat {d : Nat} (hd : d < 10) :
    charToDigit? (Char.ofNat (48 + d)) = some d := by
  interval_cases d <;> decide

theorem decDigitStep_none (cs : Str) : cs.foldl decDigitStep none = none := by
  induction cs with
  | nil => rfl
  | cons c rest ih => simpa [List.foldl_cons, decDigitStep] using ih

theorem foldl_decDigitStep (ds : List Nat) (hds : ∀ d ∈ ds, d < 10) :
    ((ds.map (fun d => Char.ofNat (48 + d))).reverse.foldl decDigitStep (some 0))
      = some (Nat.ofDigits 10 ds) := by
  rw [List.foldl_reverse, List.foldr_map]
  induction ds with
  | nil => simp [Nat.ofDigits]
  | cons d tl ih =>
    have hd : d < 10 := hds d (by simp)
    have htl : ∀ x ∈ tl, x < 10 := fun x hx => hds x (by simp [hx])
    rw [List.foldr_cons, ih htl]
    simp only [decDigitStep, charToDigit?_ofNat hd, Nat.ofDigits_cons,
      Option.some.injEq]
    omega

theorem natToDecChars_ne_nil (n : Nat) (hn : n ≠ 0) : natToDecChars n ≠ [] := by
  have hne : Nat.digits 10 n ≠ [] := Nat.digits_ne_nil_iff_ne_zero.mpr hn
  intro h
  apply hne
  have hlen : (natToDecChars n).length = (Nat.digits 10 n).length := by
    simp [natToDecChars]
  rw [h] at hlen
  exact List.length_eq_zero.mp hlen.symm

theorem decCharsToNat?_natToDecChars (n : Nat) (hn : n ≠ 0) :
    decCharsToNat? (natToDecChars n) = some n := by
  have hbound : ∀ d ∈ Nat.digits 10 n, d < 10 :=
    fun d hd => Nat.digits_lt_base (by norm_num) hd
  have hfold := foldl_decDigitStep (Nat.digits 10 n) hbound
  rw [Nat.ofDigits_digits] at hfold
  cases h : natToDecChars n with
  | nil => exact absurd h (natToDecChars_ne_nil n hn)
  | cons c cs =>
    have hrw : decCharsToNat? (c :: cs) = (c :: cs).foldl decDigitStep (some 0) := rfl
    rw [hrw, ← h]
    simpa [natToDecChars] using hfold

theorem decCharsToNat?_natToDecStr (n : Nat) :
    decCharsToNat? (natToDecStr n) = some n := by
  by_cases hn : n = 0
  · subst hn; decide
  · simp [natToDecStr, hn, decCharsToNat?_natToDecChars n hn]

theorem natToDecStr_ne_nil (n : Nat) : natToDecStr n ≠ [] := by
  intro h
  have h1 := decCharsToNat?_natToDecStr n
  rw [h] at h1
  simp [decCharsToNat?] at h1

theorem decCharsToNat?_minus_cons (cs : Str) : decCharsToNat? ('-' :: cs) = none := by
  have hrw : decCharsToNat? ('-' :: cs) = ('-' :: cs).foldl decDigitStep (some 0) := rfl
  have hstep : decDigitStep (some 0) '-' = none := rfl
  rw [hrw, List.foldl_cons, hstep, decDigitStep_none]

/-- Printing an integer and parsing it back is the identity
(the `bigint` persistence round-trip). -/
theorem decCharsToInt?_intToDecStr (n : Int) :
    decCharsToInt? (intToDecStr n) = some n := by
  by_cases hneg : n < 0
  · have h1 : intToDecStr n = '-' :: natToDecStr n.natAbs := by
      rw [intToDecStr, if_pos hneg]
    rw [h1]
    have h2 : decCharsToInt? ('-' :: natToDecStr n.natAbs)
        = (decCharsToNat? (natToDecStr n.natAbs)).map (fun m => -(Int.ofNat m)) := rfl
    rw [h2, decCharsToNat?_natToDecStr]
    show some (-(Int.ofNat n.natAbs)) = some n
    congr 1
    show -((n.natAbs : Int)) = n
    omega
  · rw [intToDecStr, if_neg hneg]
    cases h : natToDecStr n.toNat with
    | nil => exact absurd h (natToDecStr_ne_nil _)
    | cons c cs =>
      have hc : ¬(c = '-') := by
        intro hc
        subst hc
        have h1 := decCharsToNat?_natToDecStr n.toNat
        rw [h, decCharsToNat?_minus_cons] at h1
        cases h1
      have h1 := decCharsToNat?_natToDecStr n.toNat
      rw [h] at h1
      simp only [decCharsToInt?, if_neg hc, h1]
      show some (Int.ofNat n.toNat) = some n
      congr 1
      show ((n.toNat : Int)) = n
      omega

/-- C1: `canRefund(state, currentHeight)` is true iff
`currentHeight ≥ btcCancelTimelock`, the phase is none of `BTC_REDEEMED`,
`XMR_REDEEMED`, `COMPLETED`, and a lock transaction id is present; in
particular it is false in each of those three phases regardless of
height. -/
theorem canRefund_iff (s : SwapState) (h : Int) :
    (canRefund s h = true ↔
      (s.btcCancelTimelock ≤ h ∧ s.phase ≠ SwapPhase.btcRedeemed ∧
       s.phase ≠ SwapPhase.xmrRedeemed ∧ s.phase ≠ SwapPhase.completed ∧
       s.btcLockTxId ≠ none)) ∧
    ((s.phase = SwapPhase.btcRedeemed ∨ s.phase = SwapPhase.xmrRedeemed ∨
      s.phase = SwapPhase.completed) → canRefund s h = false) := by
  constructor
  · simp only [canRefund, Bool.and_eq_true, decide_eq_true_eq, Bool.not_eq_true',
      decide_eq_false_iff_not]
    tauto
  · rintro (hp | hp | hp) <;> simp [canRefund, hp]

theorem canRefund_iff_witness :
    canRefund c1State 72 = true ∧
    canRefund { c1State with phase := SwapPhase.completed } 1000000 = false :=
  ⟨(canRefund_iff c1State 72).1.mpr (by refine ⟨by decide, by decide, by decide, by decide, by decide⟩),
   (canRefund_iff { c1State with phase := SwapPhase.completed } 1000000).2
     (Or.inr (Or.inr rfl))⟩

theorem transitionPhase_escapes_terminal :
    isTerminalPhase c4State.phase = true ∧
    (transitionPhase 5 c4State SwapPhase.failed none).phase = SwapPhase.failed ∧
    c4State.phase ≠ SwapPhase.failed :=
  ⟨rfl, rfl, by decide⟩

/-- C4 (amended): `transitionPhase` guards nothing: applied to a state in a
terminal phase (`COMPLETED`, `REFUNDED`, `FAILED`) it still unconditionally
installs the new phase and appends to the history; terminal-phase
immutability is not enforced by the state module. -/
theorem transitionPhase_from_terminal (now : Int) (s : SwapState) (p : SwapPhase)
    (d : Option Str) (hterm : isTerminalPhase s.phase = true) :
    (transitionPhase now s p d).phase = p ∧
    (transitionPhase now s p d).phaseHistory
      = s.phaseHistory ++ [{ phase := p, timestamp := now, details := d }] :=
  ⟨rfl, rfl⟩

theorem transitionPhase_from_terminal_witness :
    (transitionPhase 9 { baseState with phase := SwapPhase.refunded }
      SwapPhase.btcRefunded none).phase = SwapPhase.btcRefunded :=
  (transitionPhase_from_terminal 9 { baseState with phase := SwapPhase.refunded }
    SwapPhase.btcRefunded none (by decide)).1

theorem createLockTransaction_no_failure_on_insufficient :
    lockTxTotalInput c5Params < c5Params.amount + lockTxFee c5Params ∧
    createLockTransaction c5Params
      = Except.ok
          { inputs := c5Params.inputs
            outputs := [{ address := htlcScriptToAddress c5Params.htlcScript c5Params.network
                          amount := 100000 }] } :=
  ⟨by decide, rfl⟩

/-- C5 (amended): `createLockTransaction` performs no input-sufficiency
check and never raises: for every parameter set it returns `Except.ok`,
and when the summed input value is below `amount + (150 + 70×inputCount) ×
feeRate` the result simply has no change output (its outputs exceed its
inputs). -/
theorem createLockTransaction_insufficient (p : LockTxParams)
    (h : lockTxTotalInput p < p.amount + lockTxFee p) :
    createLockTransaction p = Except.ok (lockTxValue p) ∧
    (lockTxValue p).outputs
      = [{ address := htlcScriptToAddress p.htlcScript p.network, amount := p.amount }] := by
  refine ⟨rfl, ?_⟩
  have hch : ¬(546 < lockTxChange p) := by
    unfold lockTxChange
    omega
  simp [lockTxValue, hch]

theorem createLockTransaction_insufficient_witness :
    (lockTxValue c5Params).outputs
      = [{ address := htlcScriptToAddress c5Params.htlcScript c5Params.network
           amount := c5Params.amount }] :=
  (createLockTransaction_insufficient c5Params (by decide)).2

/-- C6: for lock transactions with `inputSum ≥ amount + fee`, a change
output paying `inputSum - amount - fee` to the change address is present
exactly when that remainder exceeds 546 satoshis; otherwise the
transaction has only the HTLC output and the remainder is absorbed as
fee. -/
theorem createLockTransaction_change_iff (p : LockTxParams)
    (hsuff : p.amount + lockTxFee p ≤ lockTxTotalInput p) :
    (546 < lockTxChange p →
      (lockTxValue p).outputs
        = [{ address := htlcScriptToAddress p.htlcScript p.network, amount := p.amount },
           { address := Address.raw p.changeAddress, amount := lockTxChange p }]) ∧
    (lockTxChange p ≤ 546 →
      (lockTxValue p).outputs
        = [{ address := htlcScriptToAddress p.htlcScript p.network, amount := p.amount }]) := by
  constructor
  · intro h
    simp [lockTxValue, h]
  · intro h
    simp [lockTxValue, if_neg (not_lt.mpr h)]

theorem createLockTransaction_change_iff_witness :
    (lockTxValue c6Params).outputs
      = [{ address := htlcScriptToAddress c6Params.htlcScript c6Params.network
           amount := c6Params.amount },
         { address := Address.raw c6Params.changeAddress, amount := lockTxChange c6Params }] ∧
    (lockTxValue c6bParams).outputs
      = [{ address := htlcScriptToAddress c6bParams.htlcScript c6bParams.network
           amount := c6bParams.amount }] :=
  ⟨(createLockTransaction_change_iff c6Params (by decide)).1 (by decide),
   (createLockTransaction_change_iff c6bParams (by decide)).2 (by decide)⟩

theorem createHtlcScript_accepts_31_byte_hash :
    c7Params.secretHash.length = 31 ∧
    createHtlcScript c7Params = Except.ok (htlcScriptBytes c7Params) ∧
    (htlcScriptBytes c7Params).length = 114 :=
  ⟨by decide, rfl, by decide⟩

/-- C7 (amended): `createHtlcScript` validates nothing — it succeeds for a
`secretHash` of any length (the 32-byte `OP_SIZE` check inside the script
constrains the revealed secret at spend time, not the hash at build time)
— and it is deterministic: the result is the fixed byte concatenation of
the opcodes and pushes of its parameters. -/
theorem createHtlcScript_spec (p : HtlcParams) :
    createHtlcScript p = Except.ok (htlcScriptBytes p) ∧
    htlcScriptBytes p
      = [0x63, 0x82] ++ pushData (encodeNum 32) ++ [0x88, 0xa8] ++ pushData p.secretHash
        ++ [0x88] ++ pushData p.redeemPubkey ++ [0x67] ++ pushData (encodeNum p.locktime)
        ++ [0xb1, 0x75] ++ pushData p.refundPubkey ++ [0x68, 0xac] := by
  refine ⟨rfl, ?_⟩
  simp [htlcScriptBytes, htlcScriptElems, scriptEncode]

theorem pd_getQuote_null_below_min :
    (5000 : Int) < c9Quote.min_quantity ∧
    ProviderDiscovery.getQuoteInner (some c9Quote) 5000
      = Except.error ("Amount below minimum".data) ∧
    ProviderDiscovery.getQuote (some c9Quote) 5000 = none :=
  ⟨by decide, rfl, rfl⟩

/-- C9 (amended): both quote paths validate the amount against the
advertised bounds before returning.  `SwapProviderService.getQuote` raises
a bounds-violation error exactly when the amount is below `minBtc` or
above `maxBtc`; `ProviderDiscovery.getQuote` performs the same comparison
but catches its own exception, resolving with `null` for out-of-bounds
amounts (and when the provider has no cached quote) and with the quote
otherwise. -/
theorem getQuote_bounds_validation :
    (∀ (p : SwapProvider) (a : ℚ),
      (∃ e, SwapProviderService.getQuote p a = Except.error e)
        ↔ (a < p.minBtc ∨ p.maxBtc < a)) ∧
    (∀ (q : AsbQuoteResponse) (a : Int),
      ProviderDiscovery.getQuote (some q) a
        = if a < q.min_quantity ∨ q.max_quantity < a then none else some q) ∧
    (∀ a : Int, ProviderDiscovery.getQuote none a = none) := by
  refine ⟨?_, ?_, fun a => rfl⟩
  · intro p a
    unfold SwapProviderService.getQuote
    by_cases h1 : a < p.minBtc
    · simp [h1]
    · by_cases h2 : p.maxBtc < a
      · simp [h1, h2]
      · simp [h1, h2]
  · intro q a
    unfold ProviderDiscovery.getQuote ProviderDiscovery.getQuoteInner
    by_cases h1 : a < q.min_quantity
    · simp [h1]
    · by_cases h2 : q.max_quantity < a
      · simp [h1, h2]
      · simp [h1, h2]

theorem getQuote_bounds_validation_witness :
    (∃ e, SwapProviderService.getQuote spW (1/100000) = Except.error e) ∧
    ProviderDiscovery.getQuote (some c9Quote) 20000 = some c9Quote := by
  constructor
  · exact (getQuote_bounds_validation.1 spW (1/100000)).mpr (Or.inl (by norm_num [spW]))
  · rw [getQuote_bounds_validation.2.1 c9Quote 20000]
    norm_num [c9Quote]

/-- C10: the output paying `amount` to the HTLC address is always output 0
of the built lock transaction (change, when any, comes after), and the
executor records `btcLockTxVout = 0` together with the broadcast
transaction id in the post-broadcast save. -/
theorem htlc_output_first_and_vout_zero :
    (∀ p : LockTxParams,
      (lockTxValue p).outputs.head?
        = some { address := htlcScriptToAddress p.htlcScript p.network, amount := p.amount }) ∧
    (∀ (secret : List Nat) (quote : ExecutorQuote) (keys : SwapKeys) (resp : AsbSwapResponse)
       (network : NetworkKind) (swapId : Str) (now : Int) (utxos : List TxInput)
       (lockTxHex : Str) (txId : Str),
      ((executeSwapSaves true secret quote keys (Except.ok resp) network swapId now utxos
          lockTxHex (Except.ok txId)).getLast?).map (fun s => (s.btcLockTxVout, s.btcLockTxId))
        = some (some 0, some txId)) := by
  constructor
  · intro p
    simp [lockTxValue]
  · intro secret quote keys resp network swapId now utxos lockTxHex txId
    rfl

set_option maxRecDepth 10000 in
/-- C2 counterexample: the redemption monitor transitions to
`BTC_REDEEMED` and `XMR_REDEEMABLE` and stores the extracted value as the
secret although `sha256(secret) ≠ secretHash` — no hash verification is
performed before the transition. -/
theorem waitForBtcRedeem_no_hash_verification :
    hexEncode (sha256 (List.replicate 32 0)) ≠ c2State.secretHash ∧
    ((waitForBtcRedeemObserve 5 c2State (some c2Spend)).map
        (fun p => (p.1.phase, p.2.phase, p.1.secret)))
      = some (SwapPhase.btcRedeemed, SwapPhase.xmrRedeemable,
              some (hexEncode (List.replicate 32 0))) :=
  ⟨by decide, rfl⟩

/-- C2 (amended): when the monitor finds a spend of the lock output it
takes the second spend-proof element, and exactly when that element is 32
bytes long it treats it as the revealed secret and transitions the swap to
`BTC_REDEEMED` (recording the spending txid and the secret) and then
`XMR_REDEEMABLE` — without verifying `hash(secret) == secretHash`; a spend
whose second element is not exactly 32 bytes (e.g. 31 bytes) is never
recognized as a redemption. -/
theorem waitForBtcRedeem_spec (now : Int) (s : SwapState) (tx : Spend) (sec : List Nat) :
    (extractSecretFromWitness tx.witness = some sec →
      ((waitForBtcRedeemObserve now s (some tx)).map
          (fun p => (p.1.phase, p.2.phase, p.1.secret, p.1.btcRedeemTxId)))
        = some (SwapPhase.btcRedeemed, SwapPhase.xmrRedeemable,
                some (hexEncode sec), some tx.txid)) ∧
    (∀ w : List (List Nat), 2 ≤ w.length → (w.getD 1 []).length = 32 →
      extractSecretFromWitness w = some (w.getD 1 [])) ∧
    (∀ w : List (List Nat), (w.getD 1 []).length ≠ 32 →
      extractSecretFromWitness w = none) := by
  refine ⟨?_, ?_, ?_⟩
  · intro hx
    simp [waitForBtcRedeemObserve, hx, updateSwapState, transitionPhase]
  · intro w h2 h32
    show (if 2 ≤ w.length then
            if (w.getD 1 []).length = 32 then some (w.getD 1 []) else none
          else none) = some (w.getD 1 [])
    rw [if_pos h2, if_pos h32]
  · intro w h32
    show (if 2 ≤ w.length then
            if (w.getD 1 []).length = 32 then some (w.getD 1 []) else none
          else none) = none
    by_cases h2 : 2 ≤ w.length
    · rw [if_pos h2, if_neg h32]
    · rw [if_neg h2]

theorem waitForBtcRedeem_spec_witness :
    ((waitForBtcRedeemObserve 7 c2State (some c2Spend)).map
        (fun p => (p.1.phase, p.2.phase, p.1.secret, p.1.btcRedeemTxId)))
      = some (SwapPhase.btcRedeemed, SwapPhase.xmrRedeemable,
              some (hexEncode (List.replicate 32 0)), some c2Spend.txid) :=
  (waitForBtcRedeem_spec 7 c2State c2Spend (List.replicate 32 0)).1 (by decide)

/-- C3 counterexample: the very first state `executeSwap` persists — still
in phase `SWAP_INITIATED`, before the lock transaction even exists, let
alone before any counterparty spend is observed — already carries the
secret. -/
theorem executeSwap_first_save_contains_secret :
    ((executeSwapSaves true c3Secret c3Quote c3Keys (Except.ok c3Resp) NetworkKind.testnet
        ("s1".data) 5 [] ("aa".data) (Except.ok ("tx".data))).head?).map
      (fun s => (s.phase, s.secret))
      = some (SwapPhase.swapInitiated, some (hexEncode c3Secret)) := rfl

/-- C3 (amended): every state `executeSwap` persists carries the secret
(hex-encoded) from the very first save at initiation on — the persisted
`secret` field is populated immediately after swap initiation, not first
at the `BTC_REDEEMED` observation. -/
theorem executeSwap_all_saves_contain_secret
    (secret : List Nat) (quote : ExecutorQuote) (keys : SwapKeys) (resp : AsbSwapResponse)
    (network : NetworkKind) (swapId : Str) (now : Int) (utxos : List TxInput)
    (lockTxHex : Str) (broadcastResult : Except Str Str) :
    (executeSwapSaves true secret quote keys (Except.ok resp) network swapId now utxos
        lockTxHex broadcastResult).map (fun s => s.secret)
      = [some (hexEncode secret), some (hexEncode secret), some (hexEncode secret)] := by
  cases broadcastResult <;> rfl

theorem reviveJson_obj (l : List (Str × Json)) :
    reviveJson (.obj l) = (reviveJsonObj l).map JsVal.obj := rfl

theorem reviveJson_arr (l : List Json) :
    reviveJson (.arr l) = (reviveJsonList l).map JsVal.arr := rfl

theorem reviveJson_num (n : Int) : reviveJson (.num n) = some (.num n) := rfl

theorem reviveJsonObj_nil : reviveJsonObj [] = some [] := rfl

theorem reviveJsonObj_cons (k : Str) (j : Json) (rest : List (Str × Json)) :
    reviveJsonObj ((k, j) :: rest)
      = match reviveJson j, reviveJsonObj rest with
        | some v, some vs => some ((k, v) :: vs)
        | _, _ => none := rfl

theorem reviveJsonList_nil : reviveJsonList [] = some [] := rfl

theorem reviveJsonList_cons (j : Json) (rest : List Json) :
    reviveJsonList (j :: rest)
      = match reviveJson j, reviveJsonList rest with
        | some v, some vs => some (v :: vs)
        | _, _ => none := rfl

theorem reviveJson_str_plain {v : Str} (h : strOk v = true) :
    reviveJson (.str v) = some (.str v) := by
  have h' : strStartsWith v bigintTag = false := by
    unfold strOk at h
    cases hb : strStartsWith v bigintTag
    · rfl
    · rw [hb] at h
      cases h
  show (if strStartsWith v bigintTag then (decCharsToInt? (v.drop 7)).map JsVal.bigint
        else some (.str v)) = some (.str v)
  rw [h']
  rfl

theorem reviveJson_bigint (n : Int) :
    reviveJson (bigintJson n) = some (.bigint n) := by
  show (if strStartsWith (bigintTag ++ intToDecStr n) bigintTag then
          (decCharsToInt? ((bigintTag ++ intToDecStr n).drop 7)).map JsVal.bigint
        else some (.str (bigintTag ++ intToDecStr n))) = some (.bigint n)
  rw [strStartsWith_append]
  have hdrop : (bigintTag ++ intToDecStr n).drop 7 = intToDecStr n := by
    have hlen : bigintTag.length = 7 := rfl
    rw [← hlen, List.drop_left]
  rw [if_pos rfl, hdrop, decCharsToInt?_intToDecStr]
  rfl

theorem reviveJsonObj_append (l1 l2 : List (Str × Json)) :
    reviveJsonObj (l1 ++ l2)
      = match reviveJsonObj l1, reviveJsonObj l2 with
        | some a, some b => some (a ++ b)
        | _, _ => none := by
  induction l1 with
  | nil =>
    cases h : reviveJsonObj l2 <;> simp [reviveJsonObj_nil, h]
  | cons kv rest ih =>
    obtain ⟨k, j⟩ := kv
    rw [List.cons_append, reviveJsonObj_cons, reviveJsonObj_cons, ih]
    cases reviveJson j <;> cases reviveJsonObj rest <;> cases reviveJsonObj l2 <;> rfl

theorem revive_optStrEntryJ (k : Str) (v : Option Str) (h : optStrOk v = true) :
    reviveJsonObj (optStrEntryJ k v) = some (optStrEntryV k v) := by
  cases v with
  | none => rfl
  | some s =>
    have hs : strOk s = true := h
    rw [show optStrEntryJ k (some s) = [(k, .str s)] from rfl, reviveJsonObj_cons,
      reviveJson_str_plain hs]
    rfl

theorem revive_optNumEntryJ (k : Str) (v : Option Int) :
    reviveJsonObj (optNumEntryJ k v) = some (optNumEntryV k v) := by
  cases v <;> rfl

theorem strOk_phaseStr (ph : SwapPhase) : strOk (phaseStr ph) = true := by
  cases ph <;> decide

theorem strOk_networkStr (nk : NetworkKind) : strOk (networkStr nk) = true := by
  cases nk <;> decide

theorem revive_phaseEntry (e : PhaseEntry) (h : optStrOk e.details = true) :
    reviveJson (phaseEntryJson e) = some (phaseEntryVal e) := by
  unfold phaseEntryJson phaseEntryVal
  rw [reviveJson_obj, reviveJsonObj_append, reviveJsonObj_cons, reviveJsonObj_cons,
    reviveJson_str_plain (strOk_phaseStr e.phase), reviveJson_num, reviveJsonObj_nil,
    revive_optStrEntryJ _ _ h]
  rfl

theorem revive_history (l : List PhaseEntry)
    (h : ∀ e ∈ l, optStrOk e.details = true) :
    reviveJsonList (l.map phaseEntryJson) = some (l.map phaseEntryVal) := by
  induction l with
  | nil => rfl
  | cons e tl ih =>
    have he : optStrOk e.details = true := h e (by simp)
    have htl : ∀ x ∈ tl, optStrOk x.details = true := fun x hx => h x (by simp [hx])
    rw [List.map_cons, reviveJsonList_cons, revive_phaseEntry e he, ih htl,
      List.map_cons]

/-- C8 (amended): serializing and deserializing a `SwapState` yields a
value equal to the original in all fields — the `bigint` amounts round-trip
exactly through the `"bigint:" + toString` encoding — PROVIDED no string
field of the state itself starts with `"bigint:"`; a state containing such
a string is mangled by the reviver (see the counterexample). -/
theorem serializeSwapState_roundTrip (s : SwapState) (hok : stateStrsOk s) :
    deserializeSwapState (serializeSwapState s) = some (swapStateVal s) := by
  obtain ⟨h1, h2, h3, h4, h5, h6, h7, h8, h9, h10, h11, h12,
    h13, h14, h15, h16, h17, h18, h19⟩ := hok
  unfold deserializeSwapState serializeSwapState swapStateVal
  rw [reviveJson_obj]
  simp only [reviveJsonObj_append, reviveJsonObj_cons, reviveJsonObj_nil,
    reviveJson_num, reviveJson_bigint, reviveJson_arr,
    reviveJson_str_plain h1, reviveJson_str_plain h2, reviveJson_str_plain h3,
    reviveJson_str_plain h4, reviveJson_str_plain h5, reviveJson_str_plain h6,
    reviveJson_str_plain h8,
    reviveJson_str_plain (strOk_phaseStr s.phase),
    reviveJson_str_plain (strOk_networkStr s.network),
    revive_optStrEntryJ _ _ h7, revive_optStrEntryJ _ _ h9,
    revive_optStrEntryJ _ _ h10, revive_optStrEntryJ _ _ h11,
    revive_optStrEntryJ _ _ h12, revive_optStrEntryJ _ _ h13,
    revive_optStrEntryJ _ _ h14, revive_optStrEntryJ _ _ h15,
    revive_optStrEntryJ _ _ h16, revive_optStrEntryJ _ _ h17,
    revive_optStrEntryJ _ _ h18,
    revive_optNumEntryJ, revive_history _ h19]
  rfl

theorem serializeSwapState_roundTrip_witness :
    deserializeSwapState (serializeSwapState baseState) = some (swapStateVal baseState) :=
  serializeSwapState_roundTrip baseState
    (by refine ⟨?_, ?_, ?_, ?_, ?_, ?_, ?_, ?_, ?_, ?_, ?_, ?_, ?_, ?_, ?_, ?_, ?_, ?_, ?_⟩ <;> decide)

/-- C8 counterexample: for a state whose `id` string is `"bigint:7"`, the
reviver turns the id into `BigInt(7)`, so
`deserializeSwapState(serializeSwapState(state))` differs from the
original in the `id` field — the round-trip law fails for this state. -/
theorem deserialize_serialize_mangles_bigint_like_string :
    c8State.id = ("bigint:7".data) ∧
    jsObjGet (swapStateVal c8State) ("id".data) = some (.str ("bigint:7".data)) ∧
    ((deserializeSwapState (serializeSwapState c8State)).bind
        (fun v => jsObjGet v ("id".data))) = some (.bigint 7) ∧
    deserializeSwapState (serializeSwapState c8State) ≠ some (swapStateVal c8State) := by
  refine ⟨rfl, rfl, rfl, ?_⟩
  intro heq
  have h2 : ((deserializeSwapState (serializeSwapState c8State)).bind
      (fun v => jsObjGet v ("id".data))) = some (JsVal.bigint 7) := rfl
  rw [heq] at h2
  have h3 : ((some (swapStateVal c8State)).bind (fun v => jsObjGet v ("id".data)))
      = some (JsVal.str ("bigint:7".data)) := rfl
  have h4 := h3.symm.trans h2
  injection h4 with h5
  injection h5

end AtomicSwap
